import Mathlib

/-!
Shallow embedding of the `trust` userspace TCP endpoint (src/main.rs, src/tcp.rs).

Machine integers (`u32`, `u16`) are modelled as `Nat` with explicit reduction
modulo `2 ^ 32` (`M32`) where the source performs wrapping arithmetic.
Fallible or undefined control flow (a Rust panic, or a match that does not
cover the scrutinee's constructor) is modelled with `Option`.
-/

namespace Trust

/-- 2^32, the modulus of the 32-bit sequence-number circle. -/
def M32 : Nat := 4294967296

/-- Connection states (tcp.rs, `enum State`).  The source comments out
`Closed` and `Listen`; the remaining seven variants are embedded. -/
inductive State where
  | SynRcvd
  | Estab
  | FinWait1
  | FinWait2
  | CloseWait
  | Closing
  | TimeWait
deriving DecidableEq

/-- tcp.rs `State::is_synchronized`.  The source's `match` covers
`SynRcvd`, `Estab`, `FinWait1`, `FinWait2`, `CloseWait` and `Closing`
but not `TimeWait`; the uncovered case is modelled as `none`. -/
def State.is_synchronized : State → Option Bool
  | State.SynRcvd => some false
  | State.Estab => some true
  | State.FinWait1 => some true
  | State.FinWait2 => some true
  | State.CloseWait => some true
  | State.Closing => some true
  | State.TimeWait => none

/-- tcp.rs `is_between_wrapped` (lines 377-430): the three arms of
`match start.cmp(&x)` are embedded as the three branches below. -/
def is_between_wrapped (start x e : Nat) : Bool :=
  if start = x then
    false
  else if start < x then
    !(decide (start ≤ e) && decide (e ≤ x))
  else
    decide (e < start) && decide (x < e)

/-- An IPv4 address as its four octets (the source copies
`iph.source()[0..4]` / `iph.destination()[0..4]` bytewise). -/
structure IpAddrV4 where
  b0 : Nat
  b1 : Nat
  b2 : Nat
  b3 : Nat
deriving DecidableEq

/-- The fields of `etherparse::Ipv4Header` that the source reads or writes. -/
structure Ipv4Header where
  payload_len : Nat
  ttl : Nat
  protocol : Nat
  source : IpAddrV4
  destination : IpAddrV4
deriving DecidableEq

/-- `etherparse::Ipv4Header::new(payload_len, ttl, protocol, source, destination)`. -/
def Ipv4Header.new (payload_len ttl protocol : Nat) (source destination : IpAddrV4) :
    Ipv4Header :=
  { payload_len := payload_len, ttl := ttl, protocol := protocol
    source := source, destination := destination }

/-- The fields of `etherparse::TcpHeader` that the source reads or writes.
The header has no options, so its serialized length is 20 octets. -/
structure TcpHeader where
  source_port : Nat
  destination_port : Nat
  sequence_number : Nat
  acknowledgment_number : Nat
  window_size : Nat
  syn : Bool
  ack : Bool
  fin : Bool
  rst : Bool
  psh : Bool
  urg : Bool
  checksum : Nat
deriving DecidableEq

/-- `etherparse::TcpHeader::new(source_port, destination_port, sequence_number,
window_size)`: all flags clear, acknowledgment number and checksum zero. -/
def TcpHeader.new (source_port destination_port sequence_number window_size : Nat) :
    TcpHeader :=
  { source_port := source_port, destination_port := destination_port
    sequence_number := sequence_number, acknowledgment_number := 0
    window_size := window_size
    syn := false, ack := false, fin := false, rst := false, psh := false, urg := false
    checksum := 0 }

/-- tcp.rs `SendSequenceSpace`. -/
structure SendSequenceSpace where
  una : Nat
  nxt : Nat
  wnd : Nat
  up : Bool
  wl1 : Nat
  wl2 : Nat
  iss : Nat
deriving DecidableEq

/-- tcp.rs `ReceiveSequenceSpace`. -/
structure ReceiveSequenceSpace where
  nxt : Nat
  wnd : Nat
  up : Bool
  irs : Nat
deriving DecidableEq

/-- tcp.rs `Connection`. -/
structure Connection where
  state : State
  send : SendSequenceSpace
  recv : ReceiveSequenceSpace
  ip : Ipv4Header
  tcp : TcpHeader
deriving DecidableEq

/-- The fields of an inbound `etherparse::TcpHeaderSlice` that the source reads. -/
structure Segment where
  source_port : Nat
  destination_port : Nat
  sequence_number : Nat
  acknowledgment_number : Nat
  window_size : Nat
  syn : Bool
  ack : Bool
  fin : Bool
  rst : Bool
deriving DecidableEq

/-- The fields of an inbound `etherparse::Ipv4HeaderSlice` that `accept` reads. -/
structure Ipv4Slice where
  source : IpAddrV4
  destination : IpAddrV4
deriving DecidableEq

/-- One IPv4 datagram handed to `iface.send`: the serialized IP header, TCP
header and the payload octets actually written into the 1500-octet buffer. -/
structure OutSegment where
  ip : Ipv4Header
  tcp : TcpHeader
  payload : List Nat
deriving DecidableEq

/-- Fold the carry of a one's-complement accumulator back into the low 16 bits. -/
def ones_fold (s : Nat) : Nat := s % 65536 + s / 65536

/-- RFC 1071 one's-complement checksum of a list of 16-bit words. -/
def rfc1071 (words : List Nat) : Nat :=
  65535 - ones_fold (ones_fold (words.foldl (fun a w => a + w) 0))

/-- An IPv4 address as two 16-bit words. -/
def addr_words (a : IpAddrV4) : List Nat :=
  [a.b0 * 256 + a.b1, a.b2 * 256 + a.b3]

/-- The data-offset/flags word of a 20-octet TCP header. -/
def flags_word (t : TcpHeader) : Nat :=
  20480 + (if t.fin then 1 else 0) + (if t.syn then 2 else 0) + (if t.rst then 4 else 0)
    + (if t.psh then 8 else 0) + (if t.ack then 16 else 0) + (if t.urg then 32 else 0)

/-- Payload octets paired into 16-bit words, an odd trailing octet padded
with a zero low byte. -/
def payload_words : List Nat → List Nat
  | [] => []
  | [b] => [b * 256]
  | b0 :: b1 :: rest => (b0 * 256 + b1) :: payload_words rest

/-- Modelled from the spec: `etherparse::TcpHeader::calc_checksum_ipv4`, the
external header codec's TCP checksum — RFC 1071 one's-complement over the IPv4
pseudo-header (source address, destination address, protocol 6, TCP length =
20 + payload length) followed by the serialized 20-octet TCP header (checksum
field as zero, urgent pointer zero) and the given payload slice. -/
def calc_checksum_ipv4 (ip : Ipv4Header) (tcp : TcpHeader) (payload : List Nat) : Nat :=
  rfc1071 (addr_words ip.source ++ addr_words ip.destination
    ++ [6, 20 + payload.length]
    ++ [tcp.source_port, tcp.destination_port,
        tcp.sequence_number / 65536, tcp.sequence_number % 65536,
        tcp.acknowledgment_number / 65536, tcp.acknowledgment_number % 65536,
        flags_word tcp, tcp.window_size, 0, 0]
    ++ payload_words payload)

/-- tcp.rs `Connection::write` (lines 156-198).  Returns the mutated
connection, the emitted datagram, and the number of payload octets written.
The source computes `self.send.nxt.wrapping_add(payload_bytes as u32)` on
line 187 but discards the result, so the payload contributes nothing to the
advance of `SND.NXT`; only the SYN and FIN phantom octets advance it, and
those two flags are cleared after the advance.  The checksum is computed with
an empty payload slice (`&[]` on line 172). -/
def Connection.write (c : Connection) (payload : List Nat) :
    Connection × OutSegment × Nat :=
  let tcp1 : TcpHeader :=
    { c.tcp with sequence_number := c.send.nxt, acknowledgment_number := c.recv.nxt }
  let size := min 1500 (20 + 20 + payload.length)
  let ip1 : Ipv4Header := { c.ip with payload_len := size }
  let tcp2 : TcpHeader := { tcp1 with checksum := calc_checksum_ipv4 ip1 tcp1 [] }
  let payload_bytes := min payload.length (1500 - 40)
  let nxt1 := c.send.nxt
  let nxt2 := if tcp2.syn then (nxt1 + 1) % M32 else nxt1
  let syn2 := if tcp2.syn then false else tcp2.syn
  let nxt3 := if tcp2.fin then (nxt2 + 1) % M32 else nxt2
  let fin2 := if tcp2.fin then false else tcp2.fin
  ({ c with
      send := { c.send with nxt := nxt3 }
      tcp := { tcp2 with syn := syn2, fin := fin2 } },
   { ip := ip1, tcp := tcp2, payload := payload.take payload_bytes },
   payload_bytes)

/-- tcp.rs `Connection::send_rst` (lines 200-220): set RST, zero the
template's sequence and acknowledgment numbers (both are overwritten again
inside `write`), set the IP payload length to the TCP header length, emit. -/
def Connection.send_rst (c : Connection) : Connection × OutSegment :=
  let c1 : Connection :=
    { c with tcp := { c.tcp with
        rst := true
        sequence_number := 0
        acknowledgment_number := 0 } }
  let c2 : Connection := { c1 with ip := { c1.ip with payload_len := 20 } }
  let r := c2.write []
  (r.1, r.2.1)

/-- tcp.rs `Connection::accept` (lines 98-154).  The receiver `self` is a
pre-existing connection object; the source sets `self.tcp.syn` and
`self.tcp.ack` on it (lines 150-151) and then emits from the freshly built
`conn`, whose template flags are still clear.  The guard
`if !tcph.syn() { }` on lines 106-108 has an empty body, so a segment
without SYN is processed identically.  Returns the mutated receiver, the
created connection, and the emitted datagram. -/
def Connection.accept (self : Connection) (iph : Ipv4Slice) (tcph : Segment)
    (_data : List Nat) : Connection × Option Connection × OutSegment :=
  let iss := 0
  let wnd := 10
  let conn : Connection :=
    { state := State.SynRcvd
      send := { iss := iss, una := iss, nxt := iss, wnd := wnd
                wl1 := 0, wl2 := 0, up := false }
      recv := { irs := tcph.sequence_number
                nxt := (tcph.sequence_number + 1) % M32
                wnd := tcph.window_size, up := false }
      ip := Ipv4Header.new 0 64 6 iph.destination iph.source
      tcp := TcpHeader.new tcph.destination_port tcph.source_port iss wnd }
  let self1 : Connection := { self with tcp := { self.tcp with syn := true, ack := true } }
  let r := conn.write []
  (self1, some r.1, r.2.1)

/-- tcp.rs `Connection::on_packet`, continuation after the segment passed the
window-acceptability test (lines 309-373): advance `RCV.NXT`, run the
ACK-acceptability test, then the per-state match.  The source's `match` on
the state covers only `SynRcvd`, `Estab`, `FinWait1` and `FinWait2`
(with `Estab` being `unimplemented!()`), so the remaining states — and the
`TimeWait` hole of `is_synchronized` — are modelled as `none`. -/
def Connection.on_packet_accepted (c : Connection) (seg : Segment) (data_len : Nat) :
    Option (Connection × List OutSegment) :=
  let seqn := seg.sequence_number
  let slen := data_len + (if seg.syn then 1 else 0) + (if seg.fin then 1 else 0)
  let c1 : Connection := { c with recv := { c.recv with nxt := (seqn + slen) % M32 } }
  let ackn := seg.acknowledgment_number
  if !(is_between_wrapped c1.send.una ackn ((c1.send.nxt + 1) % M32)) then
    match c1.state.is_synchronized with
    | none => none
    | some true => some (c1, [])
    | some false =>
      let r := c1.send_rst
      some (r.1, [r.2])
  else
    let c2 : Connection := { c1 with send := { c1.send with una := ackn } }
    match c2.state with
    | State.SynRcvd =>
      if !seg.ack then
        some (c2, [])
      else
        let c3 : Connection := { c2 with state := State.Estab }
        let c4 : Connection := { c3 with tcp := { c3.tcp with fin := true } }
        let r := c4.write []
        some ({ r.1 with state := State.FinWait1 }, [r.2.1])
    | State.Estab => none
    | State.FinWait1 =>
      if !seg.fin || !(data_len = 0) then none
      else some ({ c2 with state := State.FinWait2 }, [])
    | State.FinWait2 =>
      let c3 : Connection := { c2 with tcp := { c2.tcp with fin := false } }
      let r := c3.write []
      some ({ r.1 with state := State.TimeWait }, [r.2.1])
    | State.CloseWait => none
    | State.Closing => none
    | State.TimeWait => none

/-- tcp.rs `Connection::on_packet` (lines 222-374): the four-case
segment-acceptability test of RFC 793 §3.3 with its early returns
(`some (c, [])` models `return Ok(())`), falling through to
`on_packet_accepted` when the segment is acceptable. -/
def Connection.on_packet (c : Connection) (seg : Segment) (data_len : Nat) :
    Option (Connection × List OutSegment) :=
  let seqn := seg.sequence_number
  let slen := data_len + (if seg.syn then 1 else 0) + (if seg.fin then 1 else 0)
  let wend := (c.recv.nxt + c.recv.wnd) % M32
  if slen = 0 then
    if c.recv.wnd = 0 then
      if seqn ≠ c.recv.nxt then some (c, [])
      else c.on_packet_accepted seg data_len
    else if !(is_between_wrapped ((c.recv.nxt + M32 - 1) % M32) seqn wend) then
      some (c, [])
    else c.on_packet_accepted seg data_len
  else if c.recv.wnd = 0
      || !(is_between_wrapped ((c.recv.nxt + M32 - 1) % M32) seqn wend
           || is_between_wrapped ((c.recv.nxt + M32 - 1) % M32)
                ((seqn + (slen - 1)) % M32) wend) then
    some (c, [])
  else c.on_packet_accepted seg data_len

/-- In-order delivery of a list of inbound segments (each with its payload
length) to one connection, as the main.rs loop dispatches them; collects
every emitted datagram. -/
def run (c : Connection) : List (Segment × Nat) → Option (Connection × List OutSegment)
  | [] => some (c, [])
  | (s, d) :: rest =>
    match c.on_packet s d with
    | none => none
    | some (c1, outs) =>
      match run c1 rest with
      | none => none
      | some (c2, outs2) => some (c2, outs ++ outs2)

/-- The four-case (SEG.LEN × RCV.WND) segment-acceptability table exactly as
the spec states it (§4.3.2 A), with WEND = RCV.NXT + RCV.WND (mod 2^32). -/
def accept_spec (rcv_nxt rcv_wnd seqn slen : Nat) : Bool :=
  let wend := (rcv_nxt + rcv_wnd) % M32
  let low := (rcv_nxt + M32 - 1) % M32
  if slen = 0 then
    if rcv_wnd = 0 then decide (seqn = rcv_nxt)
    else is_between_wrapped low seqn wend
  else
    if rcv_wnd = 0 then false
    else is_between_wrapped low seqn wend
      || is_between_wrapped low ((seqn + (slen - 1)) % M32) wend

/-- The permanent condition of every connection created by `accept`: still in
SYN-RCVD with SND.UNA = SND.NXT = 0 and the template's SYN and FIN clear. -/
def stuck (c : Connection) : Prop :=
  c.state = State.SynRcvd ∧ c.send.una = 0 ∧ c.send.nxt = 0
    ∧ c.tcp.syn = false ∧ c.tcp.fin = false

/-- A pre-existing connection object standing in for the `self` receiver of
`accept` (its value never influences the created connection or the emission). -/
def self0 : Connection :=
  { state := State.SynRcvd
    send := { una := 0, nxt := 0, wnd := 0, up := false, wl1 := 0, wl2 := 0, iss := 0 }
    recv := { nxt := 0, wnd := 0, up := false, irs := 0 }
    ip := Ipv4Header.new 0 64 6 ⟨0, 0, 0, 0⟩ ⟨0, 0, 0, 0⟩
    tcp := TcpHeader.new 0 0 0 0 }

/-- The inbound IP header of the spec's scenario S1: 10.0.0.2 → 10.0.0.1. -/
def iph0 : Ipv4Slice :=
  { source := ⟨10, 0, 0, 2⟩, destination := ⟨10, 0, 0, 1⟩ }

/-- The inbound SYN of scenario S1: 50000 → 80, SEG.SEQ = 0x1000 = 4096,
SEG.WND = 4096. -/
def synSeg : Segment :=
  { source_port := 50000, destination_port := 80
    sequence_number := 4096, acknowledgment_number := 0, window_size := 4096
    syn := true, ack := false, fin := false, rst := false }

/-- The same first segment with SYN clear (an ACK-only first segment). -/
def noSynSeg : Segment :=
  { synSeg with syn := false, ack := true }

/-- The connection created by `accept` on the S1 SYN. -/
def conn1 : Connection :=
  ((Connection.accept self0 iph0 synSeg []).2.1).getD self0

/-- An established connection used as a concrete instance: SND.UNA = SND.NXT = 1,
RCV.NXT = 100, RCV.WND = 10. -/
def cE : Connection :=
  { state := State.Estab
    send := { una := 1, nxt := 1, wnd := 10, up := false, wl1 := 0, wl2 := 0, iss := 0 }
    recv := { nxt := 100, wnd := 10, up := false, irs := 99 }
    ip := Ipv4Header.new 0 64 6 ⟨10, 0, 0, 1⟩ ⟨10, 0, 0, 2⟩
    tcp := TcpHeader.new 80 50000 0 10 }

/-- An in-window, zero-length segment for `cE` (SEG.SEQ = RCV.NXT = 100)
whose SEG.ACK = 5 lies outside (SND.UNA, SND.NXT] = (1, 2]. -/
def segE : Segment :=
  { source_port := 50000, destination_port := 80
    sequence_number := 100, acknowledgment_number := 5, window_size := 10
    syn := false, ack := true, fin := false, rst := false }

/-- The connection after `cE` processes the accepted segment `segE`. -/
def cE1 : Connection := ((cE.on_packet_accepted segE 0).getD (cE, [])).1

/-- The peer's correctly-formed ACK of the S1 SYN-ACK: SEG.SEQ = IRS + 1,
SEG.ACK = ISS + 1 = 1. -/
def ackSeg : Segment :=
  { source_port := 50000, destination_port := 80
    sequence_number := 4097, acknowledgment_number := 1, window_size := 4096
    syn := false, ack := true, fin := false, rst := false }

/-- The outcome of delivering the handshake ACK to `conn1`. -/
def runR : Connection × List OutSegment := (run conn1 [(ackSeg, 0)]).getD (conn1, [])

/-- `conn1` after a RST emission. -/
def connR : Connection := (conn1.send_rst).1

/-- C4 helper: the forward-walking characterisation of `is_between_wrapped`. -/
lemma is_between_wrapped_iff (a b c : Nat) (ha : a < M32) (hb : b < M32) (hc : c < M32) :
    is_between_wrapped a b c = true ↔
      ((b + M32 - a) % M32 < (c + M32 - a) % M32 ∧ a ≠ b) := by
  unfold is_between_wrapped M32 at *
  split_ifs with h1 h2 <;>
    simp only [Bool.not_eq_true', Bool.and_eq_true, decide_eq_true_eq,
      Bool.and_eq_false_iff, decide_eq_false_iff_not, not_and, not_le,
      false_iff, Bool.false_eq_true, not_lt] <;>
    omega

/-- Neither `write` nor anything it is built from touches the receive
sequence space. -/
lemma write_recv_eq (c : Connection) (p : List Nat) : ((c.write p).1).recv = c.recv := rfl

/-- Emitting a RST does not touch the receive sequence space either. -/
lemma send_rst_recv_eq (c : Connection) : ((c.send_rst).1).recv = c.recv := rfl

/-- Once the window test has passed, every defined outcome of `on_packet`
carries RCV.NXT = SEG.SEQ + SEG.LEN (mod 2^32): the assignment on line 309 of
tcp.rs happens before the ACK test and no later step writes `recv`. -/
lemma accepted_recv_nxt (c : Connection) (seg : Segment) (dl : Nat) (c' : Connection)
    (outs : List OutSegment)
    (h : c.on_packet_accepted seg dl = some (c', outs)) :
    c'.recv.nxt = (seg.sequence_number
      + (dl + (if seg.syn then 1 else 0) + (if seg.fin then 1 else 0))) % M32 := by
  simp only [Connection.on_packet_accepted] at h
  split at h
  · split at h
    · exact Option.noConfusion h
    · simp only [Option.some.injEq, Prod.mk.injEq] at h
      obtain ⟨h1, -⟩ := h
      subst h1
      rfl
    · simp only [Option.some.injEq, Prod.mk.injEq] at h
      obtain ⟨h1, -⟩ := h
      subst h1
      rfl
  · split at h
    · split at h
      · simp only [Option.some.injEq, Prod.mk.injEq] at h
        obtain ⟨h1, -⟩ := h
        subst h1
        rfl
      · simp only [Option.some.injEq, Prod.mk.injEq] at h
        obtain ⟨h1, -⟩ := h
        subst h1
        rfl
    · exact Option.noConfusion h
    · split at h
      · exact Option.noConfusion h
      · simp only [Option.some.injEq, Prod.mk.injEq] at h
        obtain ⟨h1, -⟩ := h
        subst h1
        rfl
    · simp only [Option.some.injEq, Prod.mk.injEq] at h
      obtain ⟨h1, -⟩ := h
      subst h1
      rfl
    · exact Option.noConfusion h
    · exact Option.noConfusion h
    · exact Option.noConfusion h

/-- The early-return structure of `on_packet` (lines 294-307 of tcp.rs) is
exactly the spec's four-case acceptability table: a rejected segment yields
the unchanged connection and no emission, an accepted one falls through. -/
lemma on_packet_eq (c : Connection) (seg : Segment) (dl : Nat) :
    c.on_packet seg dl =
      if accept_spec c.recv.nxt c.recv.wnd seg.sequence_number
          (dl + (if seg.syn then 1 else 0) + (if seg.fin then 1 else 0))
      then c.on_packet_accepted seg dl
      else some (c, []) := by
  simp only [Connection.on_packet, accept_spec]
  split_ifs <;> simp_all

/-- A RST emission leaves the connection's state untouched. -/
lemma send_rst_state_eq (c : Connection) : ((c.send_rst).1).state = c.state := rfl

/-- The datagram emitted by `send_rst` carries the RST flag. -/
lemma send_rst_out_rst (c : Connection) : ((c.send_rst).2).tcp.rst = true := rfl

/-- No acknowledgment number passes `is_between(0, a, 1)`: with SND.UNA =
SND.NXT = 0 the acceptable-ACK window (SND.UNA, SND.NXT] is empty. -/
lemma is_between_zero_one (a : Nat) : is_between_wrapped 0 a 1 = false := by
  unfold is_between_wrapped
  split_ifs with h1 h2 <;> simp_all
  omega

/-- `write` with the template's SYN and FIN clear moves none of the fields
tracked by `stuck`. -/
lemma write_stuck (c : Connection) (p : List Nat)
    (hs : c.tcp.syn = false) (hf : c.tcp.fin = false) :
    ((c.write p).1).state = c.state ∧ ((c.write p).1).send.una = c.send.una
    ∧ ((c.write p).1).send.nxt = c.send.nxt
    ∧ ((c.write p).1).tcp.syn = false ∧ ((c.write p).1).tcp.fin = false := by
  unfold Connection.write
  simp [hs, hf]

/-- `send_rst` with the template's SYN and FIN clear moves none of the fields
tracked by `stuck`. -/
lemma send_rst_stuck (c : Connection)
    (hs : c.tcp.syn = false) (hf : c.tcp.fin = false) :
    ((c.send_rst).1).state = c.state ∧ ((c.send_rst).1).send.una = c.send.una
    ∧ ((c.send_rst).1).send.nxt = c.send.nxt
    ∧ ((c.send_rst).1).tcp.syn = false ∧ ((c.send_rst).1).tcp.fin = false :=
  write_stuck _ [] hs hf

/-- `write` preserves `stuck`. -/
lemma write_stuck_pres (c : Connection) (p : List Nat) (h : stuck c) :
    stuck ((c.write p).1) := by
  obtain ⟨h1, h2, h3, h4, h5⟩ := h
  obtain ⟨g1, g2, g3, g4, g5⟩ := write_stuck c p h4 h5
  exact ⟨g1.trans h1, g2.trans h2, g3.trans h3, g4, g5⟩

/-- `send_rst` preserves `stuck`. -/
lemma send_rst_stuck_pres (c : Connection) (h : stuck c) : stuck ((c.send_rst).1) := by
  obtain ⟨h1, h2, h3, h4, h5⟩ := h
  obtain ⟨g1, g2, g3, g4, g5⟩ := send_rst_stuck c h4 h5
  exact ⟨g1.trans h1, g2.trans h2, g3.trans h3, g4, g5⟩

/-- Every connection `accept` creates is `stuck`: the SYN flag was set on the
receiver instead of the new connection's template, so the emission inside
`accept` advances nothing. -/
lemma accept_stuck (self : Connection) (iph : Ipv4Slice) (tcph : Segment)
    (d : List Nat) (conn : Connection)
    (h : (Connection.accept self iph tcph d).2.1 = some conn) : stuck conn := by
  simp only [Connection.accept, Option.some.injEq] at h
  subst h
  exact write_stuck_pres _ [] ⟨rfl, rfl, rfl, rfl, rfl⟩

/-- `on_packet` preserves `stuck`: with SND.UNA = SND.NXT = 0 the ACK test
`is_between(0, SEG.ACK, 1)` fails for every inbound segment, so the state
match is never reached and the only emission is a RST. -/
lemma on_packet_stuck (c : Connection) (seg : Segment) (dl : Nat) (h : stuck c) :
    ∀ c' outs, c.on_packet seg dl = some (c', outs) → stuck c' := by
  intro c' outs hp
  obtain ⟨h1, h2, h3, h4, h5⟩ := h
  rw [on_packet_eq] at hp
  cases hA : accept_spec c.recv.nxt c.recv.wnd seg.sequence_number
      (dl + (if seg.syn then 1 else 0) + (if seg.fin then 1 else 0)) with
  | false =>
    rw [hA] at hp
    simp only [Bool.false_eq_true, if_false, Option.some.injEq, Prod.mk.injEq] at hp
    obtain ⟨hp1, -⟩ := hp
    subst hp1
    exact ⟨h1, h2, h3, h4, h5⟩
  | true =>
    rw [hA] at hp
    simp only [if_true] at hp
    simp only [Connection.on_packet_accepted, h2, h3] at hp
    norm_num [M32] at hp
    simp only [is_between_zero_one] at hp
    simp only [h1, State.is_synchronized] at hp
    simp only [if_true, Option.some.injEq, Prod.mk.injEq] at hp
    obtain ⟨hp1, -⟩ := hp
    subst hp1
    exact send_rst_stuck_pres _ ⟨rfl, h2, h3, h4, h5⟩

/-- `run` preserves `stuck` across any in-order sequence of segments. -/
lemma run_stuck (segs : List (Segment × Nat)) : ∀ c, stuck c →
    ∀ c' outs, run c segs = some (c', outs) → stuck c' := by
  induction segs with
  | nil =>
    intro c h c' outs hr
    simp only [run, Option.some.injEq, Prod.mk.injEq] at hr
    obtain ⟨h1, -⟩ := hr
    subst h1
    exact h
  | cons sd rest ih =>
    obtain ⟨s, d⟩ := sd
    intro c h c' outs hr
    simp only [run] at hr
    cases hop : c.on_packet s d with
    | none =>
      rw [hop] at hr
      exact Option.noConfusion hr
    | some r =>
      obtain ⟨c1, outs1⟩ := r
      rw [hop] at hr
      cases hrr : run c1 rest with
      | none =>
        simp only [hrr] at hr
        exact Option.noConfusion hr
      | some r2 =>
        obtain ⟨c2, outs2⟩ := r2
        simp only [hrr, Option.some.injEq, Prod.mk.injEq] at hr
        obtain ⟨hc2, -⟩ := hr
        subst hc2
        exact ih c1 (on_packet_stuck c s d h c1 outs1 hop) _ _ hrr

/-- `write` never changes the RST flag of the connection's template. -/
lemma write_rst_conn (c : Connection) (p : List Nat) :
    ((c.write p).1).tcp.rst = c.tcp.rst := rfl

/-- The datagram emitted by `write` carries the template's RST flag. -/
lemma write_rst_out (c : Connection) (p : List Nat) :
    ((c.write p).2.1).tcp.rst = c.tcp.rst := rfl

/-- After `send_rst` the template's RST flag is set (and `write` only ever
clears SYN and FIN). -/
lemma send_rst_conn_rst (c : Connection) : ((c.send_rst).1).tcp.rst = true := rfl

/-- `on_packet` preserves a set RST flag and stamps it on every emission. -/
lemma on_packet_rst (c : Connection) (seg : Segment) (dl : Nat) (h : c.tcp.rst = true) :
    ∀ c' outs, c.on_packet seg dl = some (c', outs) →
      c'.tcp.rst = true ∧ ∀ o ∈ outs, o.tcp.rst = true := by
  intro c' outs hp
  rw [on_packet_eq] at hp
  cases hA : accept_spec c.recv.nxt c.recv.wnd seg.sequence_number
      (dl + (if seg.syn then 1 else 0) + (if seg.fin then 1 else 0)) with
  | false =>
    rw [hA] at hp
    simp only [Bool.false_eq_true, if_false, Option.some.injEq, Prod.mk.injEq] at hp
    obtain ⟨h1, h2⟩ := hp
    subst h1
    subst h2
    simp [h]
  | true =>
    rw [hA] at hp
    simp only [if_true] at hp
    simp only [Connection.on_packet_accepted] at hp
    split at hp
    · split at hp
      · exact Option.noConfusion hp
      · simp only [Option.some.injEq, Prod.mk.injEq] at hp
        obtain ⟨h1, h2⟩ := hp
        subst h1
        subst h2
        simp [h]
      · simp only [Option.some.injEq, Prod.mk.injEq] at hp
        obtain ⟨h1, h2⟩ := hp
        subst h1
        subst h2
        simp [send_rst_conn_rst, send_rst_out_rst]
    · split at hp
      · split at hp
        · simp only [Option.some.injEq, Prod.mk.injEq] at hp
          obtain ⟨h1, h2⟩ := hp
          subst h1
          subst h2
          simp [h]
        · simp only [Option.some.injEq, Prod.mk.injEq] at hp
          obtain ⟨h1, h2⟩ := hp
          subst h1
          subst h2
          simp [write_rst_conn, write_rst_out, h]
      · exact Option.noConfusion hp
      · split at hp
        · exact Option.noConfusion hp
        · simp only [Option.some.injEq, Prod.mk.injEq] at hp
          obtain ⟨h1, h2⟩ := hp
          subst h1
          subst h2
          simp [h]
      · simp only [Option.some.injEq, Prod.mk.injEq] at hp
        obtain ⟨h1, h2⟩ := hp
        subst h1
        subst h2
        simp [write_rst_conn, write_rst_out, h]
      · exact Option.noConfusion hp
      · exact Option.noConfusion hp
      · exact Option.noConfusion hp

/-- `run` preserves a set RST flag and stamps it on every emission. -/
lemma run_rst (segs : List (Segment × Nat)) : ∀ c, c.tcp.rst = true →
    ∀ c' outs, run c segs = some (c', outs) →
      c'.tcp.rst = true ∧ ∀ o ∈ outs, o.tcp.rst = true := by
  induction segs with
  | nil =>
    intro c h c' outs hr
    simp only [run, Option.some.injEq, Prod.mk.injEq] at hr
    obtain ⟨h1, h2⟩ := hr
    subst h1
    subst h2
    simp [h]
  | cons sd rest ih =>
    obtain ⟨s, d⟩ := sd
    intro c h c' outs hr
    simp only [run] at hr
    cases hop : c.on_packet s d with
    | none =>
      rw [hop] at hr
      exact Option.noConfusion hr
    | some r =>
      obtain ⟨c1, outs1⟩ := r
      rw [hop] at hr
      cases hrr : run c1 rest with
      | none =>
        simp only [hrr] at hr
        exact Option.noConfusion hr
      | some r2 =>
        obtain ⟨c2, outs2⟩ := r2
        simp only [hrr, Option.some.injEq, Prod.mk.injEq] at hr
        obtain ⟨hc2, ho⟩ := hr
        subst hc2
        subst ho
        obtain ⟨g1, g2⟩ := on_packet_rst c s d h c1 outs1 hop
        obtain ⟨g3, g4⟩ := ih c1 g1 _ _ hrr
        refine ⟨g3, ?_⟩
        intro o ho
        rcases List.mem_append.mp ho with h1 | h2
        · exact g2 o h1
        · exact g4 o h2

/-- C1 (code bug, evaluated at the failing input): on the S1 SYN, the single
segment emitted during `accept` has SEG.SEQ = ISS = 0 and
SEG.ACK = IRS + 1 = 4097 as claimed, but its SYN and ACK flags are both
clear, because lines 150-151 of tcp.rs set the flags on the receiver `self`
while line 152 emits from the freshly built `conn`. -/
theorem c1_accept_emits_without_syn_ack :
    (Connection.accept self0 iph0 synSeg []).2.2.tcp.syn = false
    ∧ (Connection.accept self0 iph0 synSeg []).2.2.tcp.ack = false
    ∧ (Connection.accept self0 iph0 synSeg []).2.2.tcp.sequence_number = 0
    ∧ (Connection.accept self0 iph0 synSeg []).2.2.tcp.acknowledgment_number = 4097 :=
  ⟨rfl, rfl, rfl, rfl⟩

/-- C2 (code bug, evaluated at the failing input): on a first segment whose
SYN flag is clear, `accept` still creates a SYN-RCVD connection (which
main.rs then inserts into the table) and still emits a datagram, because the
guard `if !tcph.syn()` on lines 106-108 of tcp.rs has an empty body. -/
theorem c2_accept_without_syn_still_creates :
    ((Connection.accept self0 iph0 noSynSeg []).2.1.map (fun c => c.state))
        = some State.SynRcvd
    ∧ (Connection.accept self0 iph0 noSynSeg []).2.2.tcp.acknowledgment_number = 4097 :=
  ⟨rfl, rfl⟩

/-- C3 (code bug, evaluated at the failing input): after `accept` on the S1
SYN the connection has state = SYN-RCVD, SND.ISS = SND.UNA = 0,
RCV.IRS = SEG.SEQ and RCV.NXT = SEG.SEQ + 1 as claimed, but SND.NXT = 0
rather than 1: the SYN flag was set on the wrong object (lines 150-151), so
the emission inside `accept` never adds the SYN phantom octet. -/
theorem c3_accept_leaves_snd_nxt_zero :
    conn1.state = State.SynRcvd
    ∧ conn1.send.iss = 0
    ∧ conn1.send.una = 0
    ∧ conn1.send.nxt = 0
    ∧ conn1.recv.irs = 4096
    ∧ conn1.recv.nxt = 4097 :=
  ⟨rfl, rfl, rfl, rfl, rfl, rfl⟩

/-- C4: for every u32 triple, `is_between_wrapped a b c` equals
`(b - a) mod 2^32 < (c - a) mod 2^32 ∧ a ≠ b`; in particular it is false
whenever `a = b`, whenever `b = c`, and whenever `a = c`. -/
theorem c4_is_between_wrapped_contract (a b c : Nat)
    (ha : a < M32) (hb : b < M32) (hc : c < M32) :
    (is_between_wrapped a b c = true ↔
      ((b + M32 - a) % M32 < (c + M32 - a) % M32 ∧ a ≠ b))
    ∧ is_between_wrapped a a c = false
    ∧ is_between_wrapped a b b = false
    ∧ is_between_wrapped a b a = false := by
  refine ⟨is_between_wrapped_iff a b c ha hb hc, ?_, ?_, ?_⟩ <;>
    · unfold is_between_wrapped
      split_ifs <;> simp_all <;> omega

/-- C4 witness: the contract instantiated at the concrete triple (10, 11, 9),
where walking forward from 10 reaches 11 strictly before wrapping to 9. -/
theorem c4_witness :
    10 < M32 ∧ 11 < M32 ∧ 9 < M32 ∧
      ((is_between_wrapped 10 11 9 = true ↔
        ((11 + M32 - 10) % M32 < (9 + M32 - 10) % M32 ∧ 10 ≠ 11))
      ∧ is_between_wrapped 10 10 9 = false
      ∧ is_between_wrapped 10 11 11 = false
      ∧ is_between_wrapped 10 11 10 = false) :=
  ⟨by decide, by decide, by decide,
    c4_is_between_wrapped_contract 10 11 9 (by decide) (by decide) (by decide)⟩

/-- C5: with SEG.LEN = data length + SYN + FIN, `on_packet` accepts exactly
per the spec's four (SEG.LEN × RCV.WND) cases — rejected segments leave the
connection unchanged and emit nothing — and every defined outcome of an
accepted segment has RCV.NXT = SEG.SEQ + SEG.LEN (mod 2^32). -/
theorem c5_segment_acceptability (c : Connection) (seg : Segment) (dl : Nat) :
    (c.on_packet seg dl =
      if accept_spec c.recv.nxt c.recv.wnd seg.sequence_number
          (dl + (if seg.syn then 1 else 0) + (if seg.fin then 1 else 0))
      then c.on_packet_accepted seg dl
      else some (c, []))
    ∧ ∀ c' outs, c.on_packet_accepted seg dl = some (c', outs) →
        c'.recv.nxt = (seg.sequence_number
          + (dl + (if seg.syn then 1 else 0) + (if seg.fin then 1 else 0))) % M32 :=
  ⟨on_packet_eq c seg dl, fun c' outs h => accepted_recv_nxt c seg dl c' outs h⟩

/-- C5 witness: the RCV.NXT clause instantiated on the accepted segment
`segE`, whose acceptance outcome is computed concretely. -/
theorem c5_witness : cE1.recv.nxt = 100 :=
  (c5_segment_acceptability cE segE 0).2 cE1 [] rfl

/-- C6 counterexample: `cE` is synchronized (ESTAB), `segE` passes the
window test, and its SEG.ACK = 5 fails `is_between(SND.UNA, SEG.ACK,
SND.NXT + 1)` — yet `on_packet` emits nothing at all (zero segments), where
the claim requires an empty ACK segment to be emitted. -/
theorem c6_counterexample :
    ((cE.on_packet segE 0).map (fun r => r.2.length)) = some 0
    ∧ cE.state.is_synchronized = some true
    ∧ accept_spec cE.recv.nxt cE.recv.wnd segE.sequence_number 0 = true
    ∧ is_between_wrapped cE.send.una segE.acknowledgment_number
        ((cE.send.nxt + 1) % M32) = false :=
  ⟨rfl, rfl, rfl, rfl⟩

/-- C6 as amended: for every connection and every acceptable inbound segment
whose SEG.ACK fails `is_between(SND.UNA, SEG.ACK, SND.NXT + 1)`: if the
connection is not synchronized (state SYN-RCVD) a single RST segment is
emitted, the segment is dropped and the state is unchanged; if the
connection is synchronized, the segment is dropped with nothing emitted
(lines 329-335 of tcp.rs send no reply in that branch) and the state is
unchanged. -/
theorem c6_bad_ack_handling (c : Connection) (seg : Segment) (dl : Nat)
    (hacc : accept_spec c.recv.nxt c.recv.wnd seg.sequence_number
      (dl + (if seg.syn then 1 else 0) + (if seg.fin then 1 else 0)) = true)
    (hack : is_between_wrapped c.send.una seg.acknowledgment_number
      ((c.send.nxt + 1) % M32) = false) :
    (c.state = State.SynRcvd →
      ((c.on_packet seg dl).map (fun r => (r.2.map (fun o => o.tcp.rst), r.1.state)))
        = some ([true], State.SynRcvd))
    ∧ (c.state.is_synchronized = some true →
      ((c.on_packet seg dl).map (fun r => (r.2, r.1.state))) = some ([], c.state)) := by
  rw [on_packet_eq]
  simp only [hacc, if_true]
  constructor
  · intro hs
    simp only [Connection.on_packet_accepted]
    simp only [hack, Bool.not_false, if_true, hs, State.is_synchronized]
    rfl
  · intro hs
    simp only [Connection.on_packet_accepted]
    simp only [hack, Bool.not_false, if_true, hs]
    rfl

/-- C6 witness: the amended behaviour instantiated on a SYN-RCVD connection
facing the acceptable, badly-ACKed segment `segE`: one RST segment goes out
and the state stays SYN-RCVD. -/
theorem c6_witness :
    ((({ cE with state := State.SynRcvd } : Connection).on_packet segE 0).map
        (fun r => (r.2.map (fun o => o.tcp.rst), r.1.state)))
      = some ([true], State.SynRcvd) :=
  (c6_bad_ack_handling { cE with state := State.SynRcvd } segE 0
    (by decide) (by decide)).1 rfl

/-- C7 (code bug): the advance of SND.NXT in `write` never counts the payload
octets actually written — line 187 of tcp.rs computes
`self.send.nxt.wrapping_add(payload_bytes as u32)` and discards the result —
so for every connection and payload the post-`write` SND.NXT equals what it
would be for an empty payload; evaluated at the failing input, writing one
payload octet on `conn1` reports 1 octet written yet leaves SND.NXT at 0. -/
theorem c7_payload_octets_not_counted (c : Connection) (p : List Nat) :
    ((c.write p).1).send.nxt = ((c.write []).1).send.nxt
    ∧ (conn1.write [7]).2.2 = 1
    ∧ ((conn1.write [7]).1).send.nxt = 0
    ∧ conn1.send.nxt = 0 :=
  ⟨rfl, rfl, rfl, rfl⟩

/-- C8 counterexample: writing the one-octet payload `[7]` on `conn1` emits
a datagram whose checksum does not validate against its own pseudo-header,
header and the payload octet actually written, because line 172 of tcp.rs
passes an empty slice to the checksum computation. -/
theorem c8_counterexample :
    ((conn1.write [7]).2.1).tcp.checksum
      ≠ calc_checksum_ipv4 ((conn1.write [7]).2.1).ip ((conn1.write [7]).2.1).tcp
          ((conn1.write [7]).2.1).payload := by
  decide

/-- C8 as amended: every segment emitted by `write` carries the RFC 1071
one's-complement checksum of its own IPv4 pseudo-header and TCP header with
an empty payload; this covers exactly the octets actually written whenever
the payload is empty, as it is at every call site of `write` in the source. -/
theorem c8_checksum_over_empty_payload (c : Connection) (p : List Nat) :
    ((c.write p).2.1).tcp.checksum
      = calc_checksum_ipv4 ((c.write p).2.1).ip ((c.write p).2.1).tcp []
    ∧ (p = [] → ((c.write p).2.1).payload = []) :=
  ⟨rfl, fun h => by subst h; rfl⟩

/-- C8 witness: the amended claim instantiated at `conn1` with the empty
payload of the source's call sites. -/
theorem c8_witness :
    ((conn1.write []).2.1).tcp.checksum
      = calc_checksum_ipv4 ((conn1.write []).2.1).ip ((conn1.write []).2.1).tcp []
    ∧ ((conn1.write []).2.1).payload = [] :=
  ⟨(c8_checksum_over_empty_payload conn1 []).1,
   (c8_checksum_over_empty_payload conn1 []).2 rfl⟩

/-- C9 (code bug): a connection created by `accept` never reaches TIME-WAIT
under any sequence of inbound segments, let alone within four: SND.NXT was
never advanced past 0 (the SYN flag bug of C1/C3), so the ACK-acceptability
test `is_between(0, SEG.ACK, 1)` rejects every peer reply — including the
correctly-formed ACK of our SYN — and the connection answers with a RST and
stays in SYN-RCVD forever. -/
theorem c9_never_reaches_time_wait (self : Connection) (iph : Ipv4Slice)
    (tcph : Segment) (d : List Nat) (conn : Connection)
    (hconn : (Connection.accept self iph tcph d).2.1 = some conn)
    (segs : List (Segment × Nat)) (c' : Connection) (outs : List OutSegment)
    (hrun : run conn segs = some (c', outs)) :
    c'.state ≠ State.TimeWait := by
  have h := run_stuck segs conn (accept_stuck self iph tcph d conn hconn) c' outs hrun
  intro he
  rw [h.1] at he
  exact State.noConfusion he

/-- C9 witness: after the handshake SYN and the peer's correctly-formed ACK
of our SYN, the concretely computed connection is still not in TIME-WAIT. -/
theorem c9_witness : runR.1.state ≠ State.TimeWait :=
  c9_never_reaches_time_wait self0 iph0 synSeg [] conn1 rfl
    [(ackSeg, 0)] runR.1 runR.2 rfl

/-- C10: once `send_rst` has executed, the RST flag is set on the template
and on the emitted segment; `write` never changes the template's RST flag
(it clears only the transient SYN and FIN) and stamps it on every emission;
and across any subsequent sequence of inbound segments the flag stays set
and every emitted segment carries it. -/
theorem c10_rst_is_permanent (c : Connection) :
    ((c.send_rst).1).tcp.rst = true
    ∧ ((c.send_rst).2).tcp.rst = true
    ∧ (∀ p, ((c.write p).1).tcp.rst = c.tcp.rst ∧ ((c.write p).2.1).tcp.rst = c.tcp.rst)
    ∧ (c.tcp.rst = true → ∀ segs c' outs, run c segs = some (c', outs) →
        c'.tcp.rst = true ∧ ∀ o ∈ outs, o.tcp.rst = true) :=
  ⟨send_rst_conn_rst c, send_rst_out_rst c,
   fun p => ⟨write_rst_conn c p, write_rst_out c p⟩,
   fun h segs c' outs hr => run_rst segs c h c' outs hr⟩

/-- C10 witness: instantiated on `conn1` after a RST emission, with the RST
hypothesis discharged by the theorem's own `send_rst` clause. -/
theorem c10_witness :
    connR.tcp.rst = true ∧ ∀ o ∈ ([] : List OutSegment), o.tcp.rst = true :=
  (c10_rst_is_permanent connR).2.2.2 ((c10_rst_is_permanent conn1).1) [] connR [] rfl

end Trust
